import Mathlib

/-!
Shallow embedding, in Lean 4, of the authentication subsystem of the
PhotoFilter Pro server (`server.js`, the DynamoDB `UserRepository`
helper, and `cognito.js`).  Pure data is modelled directly; the DynamoDB
store is explicit state (`RepoState`) threaded through the repository
methods, and each DynamoDB command send consumes one entry of a fault
schedule so that thrown store errors can be represented.  JSON web
tokens are modelled structurally: a token is its claims plus the secret
it was signed with, and `jwt.sign` is deterministic in its inputs, as
HS256 signing is.
-/

namespace PhotoFilter

/-- Constant `JWT_SECRET` from `server.js` line 22 (default value). -/
def JWT_SECRET : String := "photofilter-pro-secret-key-2024"

/-- Constant `JWT_EXPIRES_IN = '24h'`, in seconds. -/
def jwtExpiresSec : Nat := 86400

/-- Constant `REFRESH_TOKEN_EXPIRES_IN = '7d'`, in seconds. -/
def refreshExpiresSec : Nat := 604800

/-- The claims carried by a locally issued JWT: `{id, username}` for
access tokens, plus `type: 'refresh'` (`isRefresh = true`) for refresh
tokens; `jsonwebtoken` adds `iat` and `exp` (seconds). -/
structure Claims where
  id : String
  username : String
  isRefresh : Bool
  iat : Nat
  exp : Nat
deriving DecidableEq, Repr

/-- A signed JWT: its claims together with the secret used to sign it.
HS256 signing is deterministic, so two tokens are the same string iff
they have the same claims and secret. -/
structure Token where
  claims : Claims
  secret : String
deriving DecidableEq, Repr

inductive VerifyError where
  | invalid
  | expired
deriving DecidableEq, Repr

/-- Model of `jwt.verify(token, secret)` at time `now` (seconds): signature
mismatch throws `JsonWebTokenError` (invalid); `jsonwebtoken` then
throws `TokenExpiredError` when `now >= exp`. -/
def jwtVerify (t : Token) (secret : String) (now : Nat) : Except VerifyError Claims :=
  if t.secret ≠ secret then .error .invalid
  else if t.claims.exp ≤ now then .error .expired
  else .ok t.claims

/-- Model of the access-token issue call `jwt.sign` with payload id and username, secret `JWT_SECRET`, expiry `JWT_EXPIRES_IN`,
issued at `now` for the given identity. -/
def signAccessTok (id username : String) (now : Nat) : Token :=
  ⟨⟨id, username, false, now, now + jwtExpiresSec⟩, JWT_SECRET⟩

/-- Model of the refresh-token issue call `jwt.sign` with the same payload plus kind refresh, expiry `REFRESH_TOKEN_EXPIRES_IN`, issued at `now`. -/
def signRefreshTok (id username : String) (now : Nat) : Token :=
  ⟨⟨id, username, true, now, now + refreshExpiresSec⟩, JWT_SECRET⟩

/-- A user record as stored in the DynamoDB table (see the data-model
comment in the DynamoDB helper): `createdAt` as a timestamp,
`refreshTokens` as a list of token strings (here: structured tokens),
`emailVerificationToken` nullable. -/
structure User where
  id : String
  username : String
  password : String
  email : String
  createdAt : Nat
  refreshTokens : List Token
  emailVerified : Bool
  emailVerificationToken : Option String
deriving DecidableEq, Repr

/-- The store: the table's user items, plus a fault schedule — each
DynamoDB command send consumes one entry; `true` means that command
throws (store unavailable / record unreadable).  An exhausted schedule
means no fault. -/
structure RepoState where
  users : List User
  faults : List Bool
deriving DecidableEq, Repr

/-- Pop the next fault-schedule entry. -/
def popFault : RepoState → Bool × RepoState
  | ⟨us, []⟩ => (false, ⟨us, []⟩)
  | ⟨us, f :: fs⟩ => (f, ⟨us, fs⟩)

/-- Errors surfaced by repository methods: a DynamoDB conditional-check
failure (rethrown as `Username already exists`), or any other store
error. -/
inductive RepoErr where
  | condFailed
  | storeErr
deriving DecidableEq, Repr

/-- Replace every user item with the given username (the table's sort
key, unique in DynamoDB) by its image under `f`; other items are
untouched.  This is the effect of an `UpdateCommand` on that key for an
existing item. -/
def applyToUser (users : List User) (n : String) (f : User → User) : List User :=
  users.map (fun u => if u.username = n then f u else u)

/-- Method `UserRepository.getUserByUsername`: a `GetCommand` on the key;
returns the item or null, rethrows store errors. -/
def getUserByUsername (s : RepoState) (n : String) :
    Except RepoErr (Option User) × RepoState :=
  let (f, s1) := popFault s
  if f then (.error .storeErr, s1)
  else (.ok (s1.users.find? (fun u => u.username == n)), s1)

/-- Method `UserRepository.createUser`: a `PutCommand` with
`attribute_not_exists` condition; a conditional-check failure becomes
the `Username already exists` error.  The new item is appended to the
table. -/
def createUser (s : RepoState) (u : User) : Except RepoErr Unit × RepoState :=
  let (f, s1) := popFault s
  if f then (.error .storeErr, s1)
  else if s1.users.any (fun v => v.username == u.username) then
    (.error .condFailed, s1)
  else (.ok (), ⟨s1.users ++ [u], s1.faults⟩)

/-- Method `UserRepository.addRefreshToken`: one `UpdateCommand` appending the
token to `refreshTokens` (`list_append`). -/
def addRefreshToken (s : RepoState) (n : String) (tok : Token) :
    Except RepoErr Unit × RepoState :=
  let (f, s1) := popFault s
  if f then (.error .storeErr, s1)
  else (.ok (), ⟨applyToUser s1.users n
    (fun u => { u with refreshTokens := u.refreshTokens ++ [tok] }), s1.faults⟩)

/-- Method `UserRepository.removeRefreshToken`: reads the user, filters the
token out client-side, and — only if the list changed — writes the
filtered list back with an unconditional `SET` (a read-modify-write,
not a store-side conditional update). -/
def removeRefreshToken (s : RepoState) (n : String) (tok : Token) :
    Except RepoErr Unit × RepoState :=
  match getUserByUsername s n with
  | (.error e, s1) => (.error e, s1)
  | (.ok none, s1) => (.ok (), s1)
  | (.ok (some u), s1) =>
    let updated := u.refreshTokens.filter (fun t => t ≠ tok)
    if updated.length = u.refreshTokens.length then (.ok (), s1)
    else
      let (f, s2) := popFault s1
      if f then (.error .storeErr, s2)
      else (.ok (), ⟨applyToUser s2.users n
        (fun v => { v with refreshTokens := updated }), s2.faults⟩)

/-- Method `UserRepository.clearRefreshTokens`: one `UpdateCommand` setting
`refreshTokens` to the empty list. -/
def clearRefreshTokens (s : RepoState) (n : String) :
    Except RepoErr Unit × RepoState :=
  let (f, s1) := popFault s
  if f then (.error .storeErr, s1)
  else (.ok (), ⟨applyToUser s1.users n
    (fun u => { u with refreshTokens := [] }), s1.faults⟩)

/-- Method `UserRepository.hasRefreshToken`: reads the user; any thrown store
error is caught and yields `false`, as do a missing user and a missing
token. -/
def hasRefreshToken (s : RepoState) (n : String) (tok : Token) :
    Bool × RepoState :=
  match getUserByUsername s n with
  | (.error _, s1) => (false, s1)
  | (.ok none, s1) => (false, s1)
  | (.ok (some u), s1) => (u.refreshTokens.contains tok, s1)

/-- Method `UserRepository.getUserByVerificationToken`: a `ScanCommand`
with `FilterExpression: emailVerificationToken = :token` AND
`Limit: 1`.  DynamoDB applies `Limit` before the filter: exactly one
stored item is read and the filter is evaluated on it alone, and the
code does not paginate with `LastEvaluatedKey` — so a match is
returned only when the FIRST item of the table holds the token, and
the scan answers null for matches anywhere else.  Rethrows store
errors. -/
def getUserByVerificationToken (s : RepoState) (tok : String) :
    Except RepoErr (Option User) × RepoState :=
  let (f, s1) := popFault s
  if f then (.error .storeErr, s1)
  else (.ok ((s1.users.take 1).find?
    (fun u => u.emailVerificationToken == some tok)), s1)

/-- Method `UserRepository.updateUser` with the verify-email route's update dict (emailVerified true, emailVerificationToken null):
one `UpdateCommand` on the key. -/
def updateUserVerified (s : RepoState) (n : String) :
    Except RepoErr Unit × RepoState :=
  let (f, s1) := popFault s
  if f then (.error .storeErr, s1)
  else (.ok (), ⟨applyToUser s1.users n
    (fun u => { u with emailVerified := true, emailVerificationToken := none }),
    s1.faults⟩)

/-! ## External identity verifier (Cognito) and the unified authenticator -/

/-- The payload of a successfully verified Cognito ID token
(`cognito.verifyToken`): `sub`, the Cognito username, `email`,
`email_verified`. -/
structure CognitoPayload where
  sub : String
  username : String
  email : String
  emailVerified : Bool
deriving DecidableEq, Repr

/-- The failure modes of the external identity verifier: not shaped
like one of this provider's tokens, expired, or invalid.  In
`cognito.js` every such failure is a thrown error, and
`authenticateToken` catches them all alike. -/
inductive CognitoErr where
  | notApplicable
  | expired
  | invalid
deriving DecidableEq, Repr

/-- The outcome of the authentication middleware: either `req.user` is
set and the request proceeds, or a JSON error response is sent. -/
inductive AuthOutcome where
  | ok (id username : String)
  | fail (status : Nat) (message : String)
deriving DecidableEq, Repr

/-- The legacy branch of `authenticateToken` (`server.js` 213–227):
`jwt.verify` against `JWT_SECRET`; `TokenExpiredError` ↦ 401
`Token expired`, any other verify error ↦ 403
`Invalid or expired token`; success sets `req.user` to the decoded
claims. -/
def legacyAuth (t : Token) (now : Nat) : AuthOutcome :=
  match jwtVerify t JWT_SECRET now with
  | .error .expired => .fail 401 "Token expired"
  | .error .invalid => .fail 403 "Invalid or expired token"
  | .ok c => .ok c.id c.username

/-- The unified authentication middleware `authenticateToken`
(`server.js` 184–227).  `cog` is the external identity verifier when
Cognito is configured (`cognito.verifyToken`, which either returns a
payload or throws); `tok` is the bearer token from the Authorization
header, if any.  Every error thrown by the external verifier is caught
and silently falls through to the legacy JWT branch. -/
def authenticateToken (cog : Option (Token → Except CognitoErr CognitoPayload))
    (tok : Option Token) (now : Nat) : AuthOutcome :=
  match tok with
  | none => .fail 401 "Access token required"
  | some t =>
    match cog with
    | none => legacyAuth t now
    | some verify =>
      match verify t with
      | .ok p => .ok p.sub p.username
      | .error _ => legacyAuth t now

/-! ## HTTP responses and the session/verification route handlers -/

/-- The observable part of a JSON response from the auth routes:
status code, `message`, and the `token` / `refreshToken` fields (null
when absent). -/
structure HttpRes where
  status : Nat
  message : String
  token : Option Token
  refreshToken : Option Token
deriving DecidableEq, Repr

/-- The 403 response sent when the presented refresh token is not a
member of the user's `refreshTokens` set, or the user does not exist
(`server.js` 890–903: both send `Invalid refresh token`). -/
def invalidRefreshRes : HttpRes :=
  ⟨403, "Invalid refresh token", none, none⟩

/-- The 403 response sent by the catch-all of `POST /api/refresh`
(`server.js` 936–942): any thrown error — an expired or tampered
token, or a store error — gets `Invalid or expired refresh token`. -/
def refreshCatchRes : HttpRes :=
  ⟨403, "Invalid or expired refresh token", none, none⟩

/-- Route `POST /api/refresh` (`server.js` 867–943).  `body` is the
`refreshToken` field of the body (none when absent).  Verify the
token, require `type === 'refresh'`, load the user, check set
membership, then rotate: remove the old token and append a newly
signed one. -/
def refreshHandler (s : RepoState) (body : Option Token) (now : Nat) :
    HttpRes × RepoState :=
  match body with
  | none => (⟨400, "Refresh token is required", none, none⟩, s)
  | some rt =>
    match jwtVerify rt JWT_SECRET now with
    | .error _ => (refreshCatchRes, s)
    | .ok decoded =>
      if decoded.isRefresh = false then
        (⟨403, "Invalid token type", none, none⟩, s)
      else
        match getUserByUsername s decoded.username with
        | (.error _, s1) => (refreshCatchRes, s1)
        | (.ok none, s1) => (invalidRefreshRes, s1)
        | (.ok (some user), s1) =>
          match hasRefreshToken s1 decoded.username rt with
          | (false, s2) => (invalidRefreshRes, s2)
          | (true, s2) =>
            let newToken := signAccessTok user.id user.username now
            let newRefresh := signRefreshTok user.id user.username now
            match removeRefreshToken s2 decoded.username rt with
            | (.error _, s3) => (refreshCatchRes, s3)
            | (.ok _, s3) =>
              match addRefreshToken s3 decoded.username newRefresh with
              | (.error _, s4) => (refreshCatchRes, s4)
              | (.ok _, s4) =>
                (⟨200, "Token refreshed successfully", some newToken,
                  some newRefresh⟩, s4)

/-- Route `POST /api/logout` (`server.js` 945–962), after `authenticateToken`
has set `req.user`: clear all refresh tokens of `req.user.username`. -/
def logoutHandler (s : RepoState) (username : String) : HttpRes × RepoState :=
  match clearRefreshTokens s username with
  | (.error _, s1) => (⟨500, "Logout failed", none, none⟩, s1)
  | (.ok _, s1) => (⟨200, "Logged out successfully", none, none⟩, s1)

/-- Route `GET /api/verify-email` (`server.js` 741–806).  `tokenQ` is the
`token` query parameter (none when absent; the empty string is falsy
in `if (!token)`).  Find the user by verification token, mark the
email verified and null the token, then issue a fresh session pair. -/
def verifyEmailHandler (s : RepoState) (tokenQ : Option String) (now : Nat) :
    HttpRes × RepoState :=
  match tokenQ with
  | none => (⟨400, "Verification token is required", none, none⟩, s)
  | some tok =>
    if tok = "" then (⟨400, "Verification token is required", none, none⟩, s)
    else
      match getUserByVerificationToken s tok with
      | (.error _, s1) => (⟨500, "Email verification failed", none, none⟩, s1)
      | (.ok none, s1) =>
        (⟨404, "Invalid or expired verification token", none, none⟩, s1)
      | (.ok (some u), s1) =>
        match updateUserVerified s1 u.username with
        | (.error _, s2) => (⟨500, "Email verification failed", none, none⟩, s2)
        | (.ok _, s2) =>
          let accessToken := signAccessTok u.id u.username now
          let refreshToken := signRefreshTok u.id u.username now
          match addRefreshToken s2 u.username refreshToken with
          | (.error _, s3) =>
            (⟨500, "Email verification failed", none, none⟩, s3)
          | (.ok _, s3) =>
            (⟨200, "Email verified successfully! You can now use all features.",
              some accessToken, some refreshToken⟩, s3)

/-- Model of `bcrypt.hash(password, 10)`: modelled as an opaque injective
tagging; no claim depends on the hash's structure. -/
def bcryptHash (pw : String) : String := "bcrypt$" ++ pw

/-- Route `POST /api/register` (`server.js` 577–674).  `email = ""` is the
absent/falsy case (`email || ''`); `vtok` is the `uuidv4()`
verification token; `sendOk` is the outcome `sendVerificationEmail`
would report (that function catches its own errors and returns a
boolean).  Tokens are issued only when no email was supplied or the
verification email was sent successfully. -/
def registerHandler (s : RepoState) (username pw email vtok : String)
    (sendOk : Bool) (now : Nat) : HttpRes × RepoState :=
  if username = "" ∨ pw = "" then
    (⟨400, "Username and password are required", none, none⟩, s)
  else
    match getUserByUsername s username with
    | (.error _, s1) => (⟨500, "Registration failed", none, none⟩, s1)
    | (.ok (some _), s1) => (⟨409, "Username already exists", none, none⟩, s1)
    | (.ok none, s1) =>
      let userData : User :=
        ⟨username, username, bcryptHash pw, email, now, [], false, some vtok⟩
      match createUser s1 userData with
      | (.error .condFailed, s2) =>
        (⟨409, "Username already exists", none, none⟩, s2)
      | (.error .storeErr, s2) => (⟨500, "Registration failed", none, none⟩, s2)
      | (.ok _, s2) =>
        let emailSent := if email ≠ "" then sendOk else false
        if email = "" ∨ emailSent = true then
          let token := signAccessTok userData.id userData.username now
          let refreshToken := signRefreshTok userData.id userData.username now
          match addRefreshToken s2 username refreshToken with
          | (.error _, s3) => (⟨500, "Registration failed", none, none⟩, s3)
          | (.ok _, s3) =>
            (⟨201,
              if email = "" then "User registered successfully"
              else "User registered successfully. Please check your email to verify your account.",
              some token, some refreshToken⟩, s3)
        else
          (⟨201,
            "User registered successfully, but verification email could not be sent.",
            none, none⟩, s2)

/-! ## Share tokens (`sharedImages` in-process `Map`) -/

/-- The value bound to a share token in the `sharedImages` map
(`server.js` 1927–1934); timestamps in milliseconds. -/
structure ShareEntry where
  imageId : String
  filename : String
  filterName : String
  userId : String
  expiresAt : Nat
  createdAt : Nat
deriving DecidableEq, Repr

/-- The `sharedImages` map, as an association list keyed by the share
token. -/
def ShareStore := List (String × ShareEntry)

/-- Model of `Map.prototype.get`. -/
def mapGet (st : ShareStore) (k : String) : Option ShareEntry :=
  (st.find? (fun p => p.1 == k)).map (fun p => p.2)

/-- Model of `Map.prototype.set`: bind `k`, replacing any previous binding. -/
def mapSet (st : ShareStore) (k : String) (v : ShareEntry) : ShareStore :=
  (k, v) :: st.filter (fun p => p.1 ≠ k)

/-- Model of `Map.prototype.delete`. -/
def mapDelete (st : ShareStore) (k : String) : ShareStore :=
  st.filter (fun p => p.1 ≠ k)

/-- The token-binding step of `POST /api/share` (`server.js`
1923–1934), after authentication and the processed-file lookup have
succeeded: `expiresAt = now + expiresInHours * 60 * 60 * 1000`
(milliseconds), and the fresh `uuidv4()` token `tok` is bound in the
map. -/
def shareCreate (st : ShareStore) (tok imageId filename filterName userId : String)
    (expiresInHours now : Nat) : ShareStore :=
  mapSet st tok
    ⟨imageId, filename, filterName, userId, now + expiresInHours * 60 * 60 * 1000, now⟩

/-- Route `GET /api/shared/:token` (`server.js` 1957–1998).  `fex` is the
filesystem oracle for `fs.pathExists` on the bound file.  A missing
binding is 404; `new Date(expiresAt) < new Date()` deletes the binding
and answers 410; otherwise the bound file (and only it) is served. -/
def resolveShareToken (fex : String → Bool) (st : ShareStore) (tok : String)
    (now : Nat) : HttpRes × ShareStore :=
  match mapGet st tok with
  | none => (⟨404, "Shared link not found or expired", none, none⟩, st)
  | some e =>
    if e.expiresAt < now then
      (⟨410, "Shared link has expired", none, none⟩, mapDelete st tok)
    else if fex e.filename = false then
      (⟨404, "Image file not found", none, none⟩, st)
    else (⟨200, "", none, none⟩, st)

/-! ## Interleaving of two concurrent refresh requests

Each repository call issues its DynamoDB commands sequentially; an
interleaving of two concurrent `POST /api/refresh` requests is any
shuffle of the two command sequences.  The schedule modelled below —
both requests run their membership check (`server.js` 897) before
either performs its rotation (920–921) — keeps every repository call
contiguous, so it is one of the legal schedules. -/

/-- The store effect of the rotation step of a refresh request
(`server.js` 920–921): `removeRefreshToken` then `addRefreshToken`. -/
def rotateTokens (s : RepoState) (n : String) (oldTok newTok : Token) : RepoState :=
  (addRefreshToken (removeRefreshToken s n oldTok).2 n newTok).2

/-- Two concurrent refresh requests presenting the same token `rt` for
user `n`, under the schedule in which both membership checks precede
both rotations; `nrtA`, `nrtB` are the replacement tokens each request
signs.  Returns the two membership-check results (each request
proceeds to rotate, and then to a 200 response, exactly when its check
returned `true`) and the final store. -/
def refreshRace (s0 : RepoState) (n : String) (rt nrtA nrtB : Token) :
    Bool × Bool × RepoState :=
  let (hasA, s1) := hasRefreshToken s0 n rt
  let (hasB, s2) := hasRefreshToken s1 n rt
  let s3 := if hasA then rotateTokens s2 n rt nrtA else s2
  let s4 := if hasB then rotateTokens s3 n rt nrtB else s3
  (hasA, hasB, s4)

/-! ## Concrete example values (used in witnesses and counterexamples) -/

/-- A concrete user record mirroring the default `anter` user. -/
def exUser : User :=
  ⟨"anter", "anter", bcryptHash "kingkong", "", 0, [], true, none⟩

/-- A refresh token issued to `anter` at time 0. -/
def exRt : Token := signRefreshTok "anter" "anter" 0

/-- A fault-free store holding `anter` with `exRt` in the
refresh-token set. -/
def exStore : RepoState := ⟨[{ exUser with refreshTokens := [exRt] }], []⟩

/-- A token signed with a different secret than the server's. -/
def exBadTok : Token := ⟨⟨"anter", "anter", false, 0, 86400⟩, "evil"⟩

/-- Replacement tokens of the two racing refresh requests. -/
def exNrtA : Token := signRefreshTok "anter" "anter" 5

/-- The second racing request's replacement token. -/
def exNrtB : Token := signRefreshTok "anter" "anter" 6

/-- A user record with a pending email-verification token. -/
def exPending : User :=
  ⟨"bob", "bob", bcryptHash "pw12345", "bob@example.com", 0, [], false,
   some "vtok-1"⟩

/-- A share-token binding that expired at time 0 (milliseconds). -/
def exEntry : ShareEntry := ⟨"img1", "img1_sepia.png", "sepia", "anter", 0, 0⟩

/-! ## Helper lemmas -/

/-- With an empty fault schedule a user lookup succeeds and leaves the
store untouched. -/
lemma getUser_nofault (users : List User) (n : String) :
    getUserByUsername ⟨users, []⟩ n
      = (.ok (users.find? (fun u => u.username == n)), ⟨users, []⟩) := rfl

/-- With an empty fault schedule the verification-token scan succeeds
(evaluating only the first stored item, per `Limit: 1`) and leaves the
store untouched. -/
lemma getVerif_nofault (users : List User) (tok : String) :
    getUserByVerificationToken ⟨users, []⟩ tok
      = (.ok ((users.take 1).find?
          (fun u => u.emailVerificationToken == some tok)),
         ⟨users, []⟩) := rfl

/-- A successful single-item scan means the table's first item is the
match. -/
lemma take_one_find?_some {users : List User} {p : User → Bool} {u : User}
    (h : (users.take 1).find? p = some u) :
    ∃ rest, users = u :: rest ∧ p u = true := by
  cases users with
  | nil => simp at h
  | cons w rest =>
    cases hp : p w with
    | false => simp [List.find?_cons, hp] at h
    | true =>
      have hw : w = u := by simpa [List.find?_cons, hp] using h
      exact ⟨rest, by rw [hw], hw ▸ hp⟩

/-- With an empty fault schedule the token append always succeeds. -/
lemma addTok_nofault (users : List User) (n : String) (tok : Token) :
    addRefreshToken ⟨users, []⟩ n tok
      = (.ok (), ⟨applyToUser users n
          (fun u => { u with refreshTokens := u.refreshTokens ++ [tok] }), []⟩) := rfl

/-- With an empty fault schedule clearing always succeeds. -/
lemma clearTok_nofault (users : List User) (n : String) :
    clearRefreshTokens ⟨users, []⟩ n
      = (.ok (), ⟨applyToUser users n
          (fun u => { u with refreshTokens := [] }), []⟩) := rfl

/-- With an empty fault schedule the verified-flag update always
succeeds. -/
lemma updateVerified_nofault (users : List User) (n : String) :
    updateUserVerified ⟨users, []⟩ n
      = (.ok (), ⟨applyToUser users n
          (fun u => { u with emailVerified := true,
                             emailVerificationToken := none }), []⟩) := rfl

/-- Membership check on a fault-free store with a present user is a
plain `contains` on that user's token list. -/
lemma hasTok_nofault_some {users : List User} {n : String} {u : User}
    (tok : Token) (hu : users.find? (fun v => v.username == n) = some u) :
    hasRefreshToken ⟨users, []⟩ n tok
      = (u.refreshTokens.contains tok, ⟨users, []⟩) := by
  simp [hasRefreshToken, getUser_nofault, hu]

/-- Removing a token that is actually present, fault-free, writes back
the filtered list. -/
lemma removeTok_nofault_mem {users : List User} {n : String} {u : User}
    {tok : Token} (hu : users.find? (fun v => v.username == n) = some u)
    (hm : tok ∈ u.refreshTokens) :
    removeRefreshToken ⟨users, []⟩ n tok
      = (.ok (), ⟨applyToUser users n
          (fun v => { v with
            refreshTokens := u.refreshTokens.filter (fun t => t ≠ tok) }), []⟩) := by
  have hne : ¬ ((u.refreshTokens.filter (fun t => t ≠ tok)).length
      = u.refreshTokens.length) :=
    Nat.ne_of_lt (List.length_filter_lt_length_iff_exists.mpr ⟨tok, hm, by simp⟩)
  simp only [removeRefreshToken, getUser_nofault, hu]
  rw [if_neg hne]
  rfl

/-- Updating a user by key commutes with lookup by that key, for
username-preserving updates. -/
lemma find?_username_applyToUser (users : List User) (n : String)
    (f : User → User) (hf : ∀ u, (f u).username = u.username) :
    (applyToUser users n f).find? (fun u => u.username == n)
      = (users.find? (fun u => u.username == n)).map f := by
  induction users with
  | nil => rfl
  | cons u us ih =>
    simp only [applyToUser, List.map_cons] at *
    rw [List.find?_cons, List.find?_cons]
    by_cases h : u.username = n
    · simp [if_pos h, hf, h]
    · have hb : (u.username == n) = false := by simp [h]
      simp [if_neg h, hb, ih]

/-- Any member of an updated table whose username is the updated key is
the image of a table member with that username, for
username-preserving updates. -/
lemma mem_applyToUser_eq {users : List User} {n : String} {f : User → User}
    {v : User}
    (hv : v ∈ applyToUser users n f) (hn : v.username = n) :
    ∃ u, u ∈ users ∧ u.username = n ∧ v = f u := by
  simp only [applyToUser, List.mem_map] at hv
  obtain ⟨u, hu, heq⟩ := hv
  by_cases h : u.username = n
  · exact ⟨u, hu, h, by rw [← heq, if_pos h]⟩
  · rw [if_neg h] at heq
    subst heq
    exact absurd hn h

/-- A token signed with the server secret verifies to its claims while
unexpired. -/
lemma jwtVerify_ok {t : Token} {now : Nat} (hsec : t.secret = JWT_SECRET)
    (hexp : now < t.claims.exp) :
    jwtVerify t JWT_SECRET now = .ok t.claims := by
  simp [jwtVerify, hsec, Nat.not_le.mpr hexp]

/-- A fault-free refresh with a well-formed, unexpired refresh token
whose value is NOT in the found user's set answers the 403
`Invalid refresh token` response and leaves the store unchanged. -/
lemma refreshHandler_notMember {users : List User} {u : User} {rt : Token}
    {now : Nat} (hsec : rt.secret = JWT_SECRET) (hexp : now < rt.claims.exp)
    (href : rt.claims.isRefresh = true)
    (hu : users.find? (fun v => v.username == rt.claims.username) = some u)
    (hmem : rt ∉ u.refreshTokens) :
    refreshHandler ⟨users, []⟩ (some rt) now = (invalidRefreshRes, ⟨users, []⟩) := by
  simp [refreshHandler, jwtVerify_ok hsec hexp, href, getUser_nofault, hu,
    hasTok_nofault_some rt hu, List.elem_iff, hmem]

/-- A fault-free refresh with a well-formed, unexpired refresh token
that IS in the found user's set succeeds: it answers 200 with a fresh
pair, and the store afterwards holds the filtered-and-extended token
list. -/
lemma refreshHandler_member {users : List User} {u : User} {rt : Token}
    {now : Nat} (hsec : rt.secret = JWT_SECRET) (hexp : now < rt.claims.exp)
    (href : rt.claims.isRefresh = true)
    (hu : users.find? (fun v => v.username == rt.claims.username) = some u)
    (hmem : rt ∈ u.refreshTokens) :
    refreshHandler ⟨users, []⟩ (some rt) now
      = (⟨200, "Token refreshed successfully",
          some (signAccessTok u.id u.username now),
          some (signRefreshTok u.id u.username now)⟩,
         ⟨applyToUser
            (applyToUser users rt.claims.username
              (fun v => { v with
                refreshTokens := u.refreshTokens.filter (fun t => t ≠ rt) }))
            rt.claims.username
            (fun v => { v with
              refreshTokens :=
                v.refreshTokens ++ [signRefreshTok u.id u.username now] }), []⟩) := by
  simp [refreshHandler, jwtVerify_ok hsec hexp, href, getUser_nofault, hu,
    hasTok_nofault_some rt hu, List.elem_iff, hmem,
    removeTok_nofault_mem hu hmem, addTok_nofault]

/-- Looking up a key just bound by `mapSet` returns the bound entry. -/
lemma mapGet_mapSet (st : ShareStore) (k : String) (v : ShareEntry) :
    mapGet (mapSet st k v) k = some v := by
  simp [mapGet, mapSet, List.find?_cons]

/-- Looking up a key just removed by `mapDelete` returns nothing. -/
lemma mapGet_mapDelete (st : ShareStore) (k : String) :
    mapGet (mapDelete st k) k = none := by
  have h : (st.filter (fun p => p.1 ≠ k)).find? (fun p => p.1 == k) = none := by
    rw [List.find?_eq_none]
    intro p hp
    have := List.of_mem_filter hp
    simp at this ⊢
    exact this
  simp [mapGet, mapDelete, h]

/-! ## Claim C1 — refresh tokens are single-use -/

/-- C1 (counterexample): the claim that a second refresh presenting an
already-redeemed token value always fails is false.  When a refresh
token is rotated during the same second in which it was issued, the
replacement token `jwt.sign` produces has identical claims — hence is
the identical string — so the rotation reinserts the very token it
removed, and a second refresh with the same value succeeds with a new
pair instead of failing with 403. -/
theorem c1_counterexample :
    (refreshHandler exStore (some exRt) 0).1.status = 200 ∧
    (refreshHandler (refreshHandler exStore (some exRt) 0).2 (some exRt) 0).1.status
      = 200 ∧
    (refreshHandler (refreshHandler exStore (some exRt) 0).2 (some exRt) 0).1.refreshToken
      = some exRt := by
  refine ⟨rfl, rfl, rfl⟩

/-- C1 (amended): after a first successful refresh consumes a token —
provided the replacement token issued by that refresh differs from the
presented one, which holds whenever the rotation happens at a later
second than the token's issuance — any second refresh presenting the
same still-unexpired token value fails with the 403
`Invalid refresh token` response, no new pair is issued, and the store
is unchanged by the failed attempt. -/
theorem c1_refresh_single_use (users : List User) (u : User) (rt : Token)
    (t1 t2 : Nat)
    (hsec : rt.secret = JWT_SECRET) (href : rt.claims.isRefresh = true)
    (hexp1 : t1 < rt.claims.exp) (hexp2 : t2 < rt.claims.exp)
    (hu : users.find? (fun v => v.username == rt.claims.username) = some u)
    (hmem : rt ∈ u.refreshTokens)
    (hfresh : signRefreshTok u.id u.username t1 ≠ rt) :
    (refreshHandler ⟨users, []⟩ (some rt) t1).1.status = 200 ∧
    refreshHandler (refreshHandler ⟨users, []⟩ (some rt) t1).2 (some rt) t2
      = (invalidRefreshRes, (refreshHandler ⟨users, []⟩ (some rt) t1).2) := by
  rw [refreshHandler_member hsec hexp1 href hu hmem]
  refine ⟨rfl, ?_⟩
  have hpres1 : ∀ v : User,
      ((fun v : User => { v with
        refreshTokens := u.refreshTokens.filter (fun t => t ≠ rt) }) v).username
        = v.username := fun _ => rfl
  have hpres2 : ∀ v : User,
      ((fun v : User => { v with
        refreshTokens := v.refreshTokens ++ [signRefreshTok u.id u.username t1] }) v).username
        = v.username := fun _ => rfl
  have hfind :
      (applyToUser
        (applyToUser users rt.claims.username
          (fun v => { v with
            refreshTokens := u.refreshTokens.filter (fun t => t ≠ rt) }))
        rt.claims.username
        (fun v => { v with
          refreshTokens := v.refreshTokens ++ [signRefreshTok u.id u.username t1] })).find?
        (fun v => v.username == rt.claims.username)
      = some { u with
          refreshTokens := u.refreshTokens.filter (fun t => t ≠ rt)
            ++ [signRefreshTok u.id u.username t1] } := by
    rw [find?_username_applyToUser _ _ _ hpres2,
      find?_username_applyToUser _ _ _ hpres1, hu]
    rfl
  have hnotmem : rt ∉ (u.refreshTokens.filter (fun t => t ≠ rt)
      ++ [signRefreshTok u.id u.username t1]) := by
    intro hin
    rcases List.mem_append.mp hin with hin | hin
    · have h1 := List.of_mem_filter hin
      simp at h1
    · have h2 : rt = signRefreshTok u.id u.username t1 := by simpa using hin
      exact hfresh h2.symm
  exact refreshHandler_notMember hsec hexp2 href hfind hnotmem

/-- C1 (witness): concrete run.  The token is issued at second 0 and
refreshed at second 1, so the replacement differs; a second attempt at
second 2 gets the 403 `Invalid refresh token` response. -/
theorem c1_witness :
    (refreshHandler exStore (some exRt) 1).1.status = 200 ∧
    refreshHandler (refreshHandler exStore (some exRt) 1).2 (some exRt) 2
      = (invalidRefreshRes, (refreshHandler exStore (some exRt) 1).2) :=
  c1_refresh_single_use exStore.users { exUser with refreshTokens := [exRt] }
    exRt 1 2 rfl rfl (by decide) (by decide) rfl (by decide) (by decide)

/-! ## Claim C2 — external-verifier failures fall through silently -/

/-- C2: when the external identity verifier is configured, any
verification failure it reports (NotApplicable, Expired or Invalid) is
swallowed and verification falls through to the local token codec —
the outcome is exactly the legacy-JWT outcome, so a valid locally
issued token authenticates with no error surfaced from the external
verifier; absence of a token yields the 401 Missing failure. -/
theorem c2_cognito_fallthrough
    (verify : Token → Except CognitoErr CognitoPayload) (t : Token)
    (now : Nat) (e : CognitoErr) :
    (verify t = .error e →
      authenticateToken (some verify) (some t) now = legacyAuth t now) ∧
    (verify t = .error e → t.secret = JWT_SECRET → now < t.claims.exp →
      authenticateToken (some verify) (some t) now
        = .ok t.claims.id t.claims.username) ∧
    authenticateToken (some verify) none now
      = .fail 401 "Access token required" := by
  refine ⟨fun hv => ?_, fun hv hsec hexp => ?_, rfl⟩
  · simp [authenticateToken, hv]
  · simp [authenticateToken, hv, legacyAuth, jwtVerify_ok hsec hexp]

/-- C2 (witness): a verifier that always reports NotApplicable, a
locally issued access token: authentication succeeds via the local
codec. -/
theorem c2_witness :
    ((fun _ : Token =>
        (.error .notApplicable : Except CognitoErr CognitoPayload))
      (signAccessTok "anter" "anter" 0) = .error .notApplicable) ∧
    authenticateToken
        (some (fun _ => .error .notApplicable))
        (some (signAccessTok "anter" "anter" 0)) 5
      = .ok "anter" "anter" :=
  ⟨rfl,
    (c2_cognito_fallthrough (fun _ => .error .notApplicable)
      (signAccessTok "anter" "anter" 0) 5 .notApplicable).2.1 rfl rfl (by decide)⟩

/-! ## Claim C3 — status mapping Expired ↦ 401, Invalid/NotRecognized ↦ 403 -/

/-- C3 (counterexample): the claim that a refresh request presenting an
expired refresh token yields HTTP 401 is false — the refresh route's
catch-all maps the expired-token error to 403
`Invalid or expired refresh token`. -/
theorem c3_counterexample :
    refreshHandler exStore (some exRt) refreshExpiresSec
      = (refreshCatchRes, exStore) ∧
    (refreshHandler exStore (some exRt) refreshExpiresSec).1.status ≠ 401 := by
  exact ⟨rfl, by decide⟩

/-- C3 (amended): at the authentication middleware, an expired access
token maps to 401 `Token expired` and an invalid (wrong-signature)
token to 403; at the refresh route, an UNRECOGNIZED (revoked/rotated)
token maps to 403 `Invalid refresh token`, but an EXPIRED refresh
token also maps to 403 (`Invalid or expired refresh token`), not to
401 as the spec claims. -/
theorem c3_status_mapping :
    (∀ (t : Token) (now : Nat), t.secret = JWT_SECRET → t.claims.exp ≤ now →
      authenticateToken none (some t) now = .fail 401 "Token expired") ∧
    (∀ (t : Token) (now : Nat), t.secret ≠ JWT_SECRET →
      authenticateToken none (some t) now
        = .fail 403 "Invalid or expired token") ∧
    (∀ (s : RepoState) (rt : Token) (now : Nat),
      rt.secret = JWT_SECRET → rt.claims.exp ≤ now →
      refreshHandler s (some rt) now = (refreshCatchRes, s)) ∧
    (∀ (users : List User) (u : User) (rt : Token) (now : Nat),
      rt.secret = JWT_SECRET → now < rt.claims.exp →
      rt.claims.isRefresh = true →
      users.find? (fun v => v.username == rt.claims.username) = some u →
      rt ∉ u.refreshTokens →
      refreshHandler ⟨users, []⟩ (some rt) now
        = (invalidRefreshRes, ⟨users, []⟩)) := by
  refine ⟨fun t now hsec hexp => ?_, fun t now hsec => ?_,
    fun s rt now hsec hexp => ?_,
    fun users u rt now hsec hexp href hu hmem =>
      refreshHandler_notMember hsec hexp href hu hmem⟩
  · simp [authenticateToken, legacyAuth, jwtVerify, hsec, hexp]
  · simp [authenticateToken, legacyAuth, jwtVerify, hsec]
  · simp [refreshHandler, jwtVerify, hsec, hexp]

/-- C3 (witness): concrete instances of all four mappings — expired
access token at the middleware (401), wrong-signature token (403),
expired refresh token at the refresh route (403, the amended part),
and a revoked refresh token (403). -/
theorem c3_witness :
    authenticateToken none (some (signAccessTok "anter" "anter" 0)) jwtExpiresSec
      = .fail 401 "Token expired" ∧
    authenticateToken none (some exBadTok) 0
      = .fail 403 "Invalid or expired token" ∧
    refreshHandler exStore (some exRt) refreshExpiresSec
      = (refreshCatchRes, exStore) ∧
    refreshHandler ⟨[exUser], []⟩ (some exRt) 1
      = (invalidRefreshRes, ⟨[exUser], []⟩) :=
  ⟨c3_status_mapping.1 (signAccessTok "anter" "anter" 0) jwtExpiresSec rfl
      (by decide),
   c3_status_mapping.2.1 exBadTok 0 (by decide),
   c3_status_mapping.2.2.1 exStore exRt refreshExpiresSec rfl (by decide),
   c3_status_mapping.2.2.2 [exUser] exUser exRt 1 rfl (by decide) rfl rfl
      (by decide)⟩

/-! ## Claim C4 — logout revokes refresh tokens but not access tokens -/

/-- C4: logout clears the user's entire refresh-token set, so every
refresh token carrying that username fails a subsequent (fault-free,
unexpired) refresh with the 403 `Invalid refresh token` response; yet
any previously issued, still-unexpired access token continues to
verify at the authentication middleware, which never consults the
store. -/
theorem c4_logout_revokes_refresh_not_access (users : List User) (u : User)
    (n : String) (hu : users.find? (fun v => v.username == n) = some u) :
    logoutHandler ⟨users, []⟩ n
      = (⟨200, "Logged out successfully", none, none⟩,
         ⟨applyToUser users n (fun v => { v with refreshTokens := [] }), []⟩) ∧
    (∀ (rt : Token) (t2 : Nat), rt.secret = JWT_SECRET →
      rt.claims.isRefresh = true → rt.claims.username = n →
      t2 < rt.claims.exp →
      refreshHandler
          ⟨applyToUser users n (fun v => { v with refreshTokens := [] }), []⟩
          (some rt) t2
        = (invalidRefreshRes,
           ⟨applyToUser users n (fun v => { v with refreshTokens := [] }), []⟩)) ∧
    (∀ (t : Token) (t3 : Nat), t.secret = JWT_SECRET → t3 < t.claims.exp →
      authenticateToken none (some t) t3 = .ok t.claims.id t.claims.username) := by
  refine ⟨by simp [logoutHandler, clearTok_nofault],
    fun rt t2 hsec href hn hexp => ?_, fun t t3 hsec hexp => ?_⟩
  · have hfind :
        (applyToUser users n (fun v => { v with refreshTokens := [] })).find?
          (fun v => v.username == rt.claims.username)
        = some { u with refreshTokens := ([] : List Token) } := by
      have hpres : ∀ v : User,
          ((fun v : User => { v with refreshTokens := ([] : List Token) }) v).username
            = v.username := fun _ => rfl
      rw [hn, find?_username_applyToUser _ _ _ hpres, hu]
      rfl
    exact refreshHandler_notMember hsec hexp href hfind (by simp)
  · simp [authenticateToken, legacyAuth, jwtVerify_ok hsec hexp]

/-- C4 (witness): concrete run — after `anter` logs out, the refresh
token that was in the set is rejected with 403, while an access token
issued before the logout still authenticates. -/
theorem c4_witness :
    logoutHandler exStore "anter"
      = (⟨200, "Logged out successfully", none, none⟩,
         ⟨applyToUser exStore.users "anter"
            (fun v => { v with refreshTokens := [] }), []⟩) ∧
    refreshHandler
        ⟨applyToUser exStore.users "anter"
           (fun v => { v with refreshTokens := [] }), []⟩ (some exRt) 5
      = (invalidRefreshRes,
         ⟨applyToUser exStore.users "anter"
            (fun v => { v with refreshTokens := [] }), []⟩) ∧
    authenticateToken none (some (signAccessTok "anter" "anter" 0)) 5
      = .ok "anter" "anter" := by
  have h := c4_logout_revokes_refresh_not_access exStore.users
    { exUser with refreshTokens := [exRt] } "anter" rfl
  exact ⟨h.1, h.2.1 exRt 5 rfl rfl rfl (by decide),
    h.2.2 (signAccessTok "anter" "anter" 0) 5 rfl (by decide)⟩

/-! ## Claim C5 — email-verification tokens are single-use -/

/-- C5: a successful email verification — which, under the scan's
`Limit: 1` semantics, happens exactly when the table's first item
holds the presented token — answers 200 with a fresh session pair for
that user, and afterwards every record with that username has
`emailVerified = true` and a nulled verification token; presenting
the same token again yields the same 404
`Invalid or expired verification token` response as a token the scan
never matches, with the store left untouched in both failure cases. -/
theorem c5_email_verification_single_use (users : List User) (u : User)
    (tok : String) (now now2 : Nat) (htok : tok ≠ "")
    (hu : (users.take 1).find? (fun v => v.emailVerificationToken == some tok)
      = some u) :
    (verifyEmailHandler ⟨users, []⟩ (some tok) now).1
      = ⟨200, "Email verified successfully! You can now use all features.",
         some (signAccessTok u.id u.username now),
         some (signRefreshTok u.id u.username now)⟩ ∧
    (∀ v ∈ (verifyEmailHandler ⟨users, []⟩ (some tok) now).2.users,
      v.username = u.username →
      v.emailVerified = true ∧ v.emailVerificationToken = none) ∧
    verifyEmailHandler (verifyEmailHandler ⟨users, []⟩ (some tok) now).2
        (some tok) now2
      = (⟨404, "Invalid or expired verification token", none, none⟩,
         (verifyEmailHandler ⟨users, []⟩ (some tok) now).2) ∧
    (∀ (others : List User) (now3 : Nat),
      (others.take 1).find? (fun v => v.emailVerificationToken == some tok)
        = none →
      verifyEmailHandler ⟨others, []⟩ (some tok) now3
        = (⟨404, "Invalid or expired verification token", none, none⟩,
           ⟨others, []⟩)) := by
  obtain ⟨rest, husers, hpu⟩ := take_one_find?_some hu
  subst husers
  have hrun : verifyEmailHandler ⟨u :: rest, []⟩ (some tok) now
      = (⟨200, "Email verified successfully! You can now use all features.",
          some (signAccessTok u.id u.username now),
          some (signRefreshTok u.id u.username now)⟩,
         ⟨applyToUser
            (applyToUser (u :: rest) u.username
              (fun v => { v with emailVerified := true,
                                 emailVerificationToken := none }))
            u.username
            (fun v => { v with refreshTokens :=
              v.refreshTokens ++ [signRefreshTok u.id u.username now] }), []⟩) := by
    simp [verifyEmailHandler, htok, getVerif_nofault, hu, hpu,
      updateVerified_nofault, addTok_nofault]
  have hfail : ((applyToUser
      (applyToUser (u :: rest) u.username
        (fun v => { v with emailVerified := true,
                           emailVerificationToken := none }))
      u.username
      (fun v => { v with refreshTokens :=
        v.refreshTokens ++ [signRefreshTok u.id u.username now] })).take 1).find?
      (fun v => v.emailVerificationToken == some tok) = none := by
    simp [applyToUser, List.find?_cons]
  refine ⟨by rw [hrun], fun v hv hn => ?_, ?_, fun others now3 h3 => ?_⟩
  · rw [hrun] at hv
    obtain ⟨w, hwmem, hwn, hvw⟩ := mem_applyToUser_eq hv hn
    obtain ⟨x, hxmem, hxn, hwx⟩ := mem_applyToUser_eq hwmem hwn
    subst hvw
    subst hwx
    exact ⟨rfl, rfl⟩
  · rw [hrun]
    simp [verifyEmailHandler, htok, getVerif_nofault, hfail]
  · simp [verifyEmailHandler, htok, getVerif_nofault, h3]

/-- C5 (witness): concrete run — consuming `vtok-1` verifies `bob` and
issues a pair; presenting `vtok-1` again yields the 404 response. -/
theorem c5_witness :
    (verifyEmailHandler ⟨[exPending], []⟩ (some "vtok-1") 0).1
      = ⟨200, "Email verified successfully! You can now use all features.",
         some (signAccessTok "bob" "bob" 0),
         some (signRefreshTok "bob" "bob" 0)⟩ ∧
    verifyEmailHandler (verifyEmailHandler ⟨[exPending], []⟩ (some "vtok-1") 0).2
        (some "vtok-1") 1
      = (⟨404, "Invalid or expired verification token", none, none⟩,
         (verifyEmailHandler ⟨[exPending], []⟩ (some "vtok-1") 0).2) := by
  have h := c5_email_verification_single_use [exPending] exPending "vtok-1" 0 1
    (by decide) rfl
  exact ⟨h.1, h.2.2.1⟩

/-! ## Claim C6 — concurrent refresh with the same token -/

/-- C6 (counterexample): the claim that at most one of two concurrent
refresh calls presenting the same token observes it as present (and
that a store-side conditional primitive guarantees this) is false.
Under the legal interleaving in which both membership checks run
before either rotation — possible because the check and the removal
are separate client-side commands, not one conditional store update —
both requests observe the token as present and both proceed to
succeed. -/
theorem c6_counterexample :
    (refreshRace exStore "anter" exRt exNrtA exNrtB).1 = true ∧
    (refreshRace exStore "anter" exRt exNrtA exNrtB).2.1 = true :=
  ⟨rfl, rfl⟩

/-- C6 (amended): the removal is a client-side read-modify-write (get,
filter, unconditional write), not a store conditional update; under
the interleaving in which both membership checks precede both
rotations, two concurrent refresh calls presenting the same
set-member token BOTH observe it as present, and hence both succeed —
only serialized execution makes the second fail. -/
theorem c6_race_both_succeed (users : List User) (u : User) (n : String)
    (rt a b : Token)
    (hu : users.find? (fun v => v.username == n) = some u)
    (hmem : rt ∈ u.refreshTokens) :
    (refreshRace ⟨users, []⟩ n rt a b).1 = true ∧
    (refreshRace ⟨users, []⟩ n rt a b).2.1 = true := by
  simp [refreshRace, hasTok_nofault_some rt hu, List.elem_iff, hmem]

/-- C6 (witness): concrete race on `anter`'s token. -/
theorem c6_witness :
    (refreshRace ⟨exStore.users, []⟩ "anter" exRt exNrtA exNrtB).1 = true ∧
    (refreshRace ⟨exStore.users, []⟩ "anter" exRt exNrtA exNrtB).2.1 = true :=
  c6_race_both_succeed exStore.users { exUser with refreshTokens := [exRt] }
    "anter" exRt exNrtA exNrtB rfl (by decide)

/-! ## Claim C7 — refresh requires signature AND set membership -/

/-- C7: a fault-free refresh succeeds only if the presented token
passes the signature/expiry check, carries kind refresh, and is a
member of the user's stored refresh-token set; and a token that is
valid as a signed token but absent from the found user's set is
rejected with the 403 `Invalid refresh token` (NotRecognized)
response. -/
theorem c7_refresh_requires_sig_and_membership (users : List User)
    (rt : Token) (now : Nat) :
    ((refreshHandler ⟨users, []⟩ (some rt) now).1.status = 200 →
      rt.secret = JWT_SECRET ∧ now < rt.claims.exp ∧
      rt.claims.isRefresh = true ∧
      (hasRefreshToken ⟨users, []⟩ rt.claims.username rt).1 = true) ∧
    (∀ u : User, rt.secret = JWT_SECRET → now < rt.claims.exp →
      rt.claims.isRefresh = true →
      users.find? (fun v => v.username == rt.claims.username) = some u →
      rt ∉ u.refreshTokens →
      refreshHandler ⟨users, []⟩ (some rt) now
        = (invalidRefreshRes, ⟨users, []⟩)) := by
  refine ⟨fun h => ?_, fun u hsec hexp href hu hmem =>
    refreshHandler_notMember hsec hexp href hu hmem⟩
  by_cases hsec : rt.secret = JWT_SECRET
  · by_cases hexp : now < rt.claims.exp
    · by_cases href : rt.claims.isRefresh = true
      · refine ⟨hsec, hexp, href, ?_⟩
        cases hfind : users.find? (fun v => v.username == rt.claims.username) with
        | none =>
          exfalso
          simp [refreshHandler, jwtVerify_ok hsec hexp, href, getUser_nofault,
            hfind, invalidRefreshRes] at h
        | some u =>
          by_cases hmem : rt ∈ u.refreshTokens
          · simp [hasTok_nofault_some rt hfind, List.elem_iff, hmem]
          · exfalso
            rw [refreshHandler_notMember hsec hexp href hfind hmem] at h
            simp [invalidRefreshRes] at h
      · exfalso
        have href' : rt.claims.isRefresh = false := by
          cases hb : rt.claims.isRefresh
          · rfl
          · exact absurd hb href
        simp [refreshHandler, jwtVerify_ok hsec hexp, href'] at h
    · exfalso
      have hexp' : rt.claims.exp ≤ now := Nat.not_lt.mp hexp
      simp [refreshHandler, jwtVerify, hsec, hexp', refreshCatchRes] at h
  · exfalso
    simp [refreshHandler, jwtVerify, hsec, refreshCatchRes] at h

/-- C7 (witness): a successful concrete refresh implies all three
conditions; a signed-but-revoked token (user's set is empty) gets the
403 `Invalid refresh token` response. -/
theorem c7_witness :
    (refreshHandler exStore (some exRt) 1).1.status = 200 ∧
    (exRt.secret = JWT_SECRET ∧ 1 < exRt.claims.exp ∧
      exRt.claims.isRefresh = true ∧
      (hasRefreshToken exStore exRt.claims.username exRt).1 = true) ∧
    refreshHandler ⟨[exUser], []⟩ (some exRt) 1
      = (invalidRefreshRes, ⟨[exUser], []⟩) := by
  refine ⟨rfl, ?_, ?_⟩
  · exact (c7_refresh_requires_sig_and_membership exStore.users exRt 1).1 rfl
  · exact (c7_refresh_requires_sig_and_membership [exUser] exRt 1).2 exUser
      rfl (by decide) rfl rfl (by decide)

/-! ## Claim C8 — expired share tokens -/

/-- C8 (counterexample): the claim that an expired share token is
treated as not-found is false — an expired binding is evicted but
answered with a distinct 410 `Shared link has expired` response, while
a missing binding is answered 404 `Shared link not found or expired`;
moreover a binding created with zero TTL still resolves (200) when the
resolution happens at the same millisecond as creation, since the
expiry check is strict. -/
theorem c8_counterexample :
    (resolveShareToken (fun _ => true) [("tok", exEntry)] "tok" 1).1.status
      = 410 ∧
    (resolveShareToken (fun _ => true) ([] : ShareStore) "tok" 1).1.status
      = 404 ∧
    (resolveShareToken (fun _ => true) [("tok", exEntry)] "tok" 1).1
      ≠ (resolveShareToken (fun _ => true) ([] : ShareStore) "tok" 1).1 ∧
    (resolveShareToken (fun _ => true)
        (shareCreate [] "tok" "img1" "img1_sepia.png" "sepia" "anter" 0 7)
        "tok" 7).1.status = 200 := by
  exact ⟨rfl, rfl, by decide, rfl⟩

/-- C8 (amended): a share token whose stored expiry lies strictly in
the past at resolution time is evicted from the store and rejected
with the 410 `Shared link has expired` response (distinguishable from
the 404 not-found response), after which the binding is gone; a token
created with zero TTL expires at its creation instant and is therefore
rejected-and-evicted at every strictly later time. -/
theorem c8_share_expiry (fex : String → Bool) (st : ShareStore)
    (tok : String) (e : ShareEntry) (now : Nat) :
    (mapGet st tok = some e → e.expiresAt < now →
      resolveShareToken fex st tok now
        = (⟨410, "Shared link has expired", none, none⟩, mapDelete st tok) ∧
      mapGet (mapDelete st tok) tok = none) ∧
    (∀ (st2 : ShareStore) (a b c d : String) (t1 t2 : Nat), t1 < t2 →
      (resolveShareToken fex (shareCreate st2 tok a b c d 0 t1) tok t2).1
        = ⟨410, "Shared link has expired", none, none⟩) := by
  refine ⟨fun hg hlt => ?_, fun st2 a b c d t1 t2 hlt => ?_⟩
  · exact ⟨by simp [resolveShareToken, hg, hlt], mapGet_mapDelete st tok⟩
  · have hg2 : mapGet (shareCreate st2 tok a b c d 0 t1) tok
        = some ⟨a, b, c, d, t1 + 0 * 60 * 60 * 1000, t1⟩ :=
      mapGet_mapSet _ _ _
    have hlt2 : t1 + 0 * 60 * 60 * 1000 < t2 := by simpa using hlt
    simp [resolveShareToken, hg2, hlt2, hlt]

/-- C8 (witness): the expired binding for `tok` is evicted and gets
410; the zero-TTL binding created at time 7 is unresolvable at
time 8. -/
theorem c8_witness :
    resolveShareToken (fun _ => true) [("tok", exEntry)] "tok" 1
      = (⟨410, "Shared link has expired", none, none⟩,
         mapDelete [("tok", exEntry)] "tok") ∧
    (resolveShareToken (fun _ => true)
        (shareCreate [] "tok" "img1" "img1_sepia.png" "sepia" "anter" 0 7)
        "tok" 8).1
      = ⟨410, "Shared link has expired", none, none⟩ := by
  have h := c8_share_expiry (fun _ => true) [("tok", exEntry)] "tok" exEntry 1
  exact ⟨(h.1 rfl (by decide)).1,
    h.2 [] "img1" "img1_sepia.png" "sepia" "anter" 7 8 (by decide)⟩

/-! ## Claim C9 — registration creates the record, tokens conditional -/

/-- C9: given a free username, registration answers 201 and creates
the user record (with its pending verification token) in the store
unconditionally; the response carries a token pair if and only if no
email address was supplied or the verification email was sent
successfully, and when an email was supplied but sending failed both
token fields are null. -/
theorem c9_register_conditional_token_issue (users : List User)
    (username pw email vtok : String) (sendOk : Bool) (now : Nat)
    (hun : username ≠ "") (hpw : pw ≠ "")
    (hfree : ∀ v ∈ users, v.username ≠ username) :
    (registerHandler ⟨users, []⟩ username pw email vtok sendOk now).1.status
      = 201 ∧
    (((registerHandler ⟨users, []⟩ username pw email vtok sendOk now).1.token
        ≠ none ∧
      (registerHandler ⟨users, []⟩ username pw email vtok sendOk now).1.refreshToken
        ≠ none)
      ↔ (email = "" ∨ sendOk = true)) ∧
    (email ≠ "" → sendOk = false →
      (registerHandler ⟨users, []⟩ username pw email vtok sendOk now).1.token
        = none ∧
      (registerHandler ⟨users, []⟩ username pw email vtok sendOk now).1.refreshToken
        = none) ∧
    (∃ v ∈ (registerHandler ⟨users, []⟩ username pw email vtok sendOk now).2.users,
      v.username = username ∧ v.emailVerificationToken = some vtok ∧
      v.emailVerified = false) := by
  have hfind : users.find? (fun v => v.username == username) = none := by
    rw [List.find?_eq_none]
    intro x hx
    simp [hfree x hx]
  have hany : users.any (fun v => v.username == username) = false := by
    rw [List.any_eq_false]
    intro x hx
    simp [hfree x hx]
  have hcreate : createUser ⟨users, []⟩
      ⟨username, username, bcryptHash pw, email, now, [], false, some vtok⟩
      = (.ok (), ⟨users ++ [⟨username, username, bcryptHash pw, email, now, [],
          false, some vtok⟩], []⟩) := by
    simp [createUser, popFault, hany]
  by_cases hem : email = ""
  · subst hem
    have hrun : registerHandler ⟨users, []⟩ username pw "" vtok sendOk now
        = (⟨201, "User registered successfully",
            some (signAccessTok username username now),
            some (signRefreshTok username username now)⟩,
           ⟨applyToUser (users ++ [⟨username, username, bcryptHash pw, "",
              now, [], false, some vtok⟩]) username
             (fun v => { v with refreshTokens :=
               v.refreshTokens ++ [signRefreshTok username username now] }), []⟩) := by
      simp [registerHandler, hun, hpw, getUser_nofault, hfind, hcreate,
        addTok_nofault]
    rw [hrun]
    refine ⟨rfl, by simp, fun hcon => absurd rfl hcon, ?_⟩
    refine ⟨⟨username, username, bcryptHash pw, "", now,
      [signRefreshTok username username now], false, some vtok⟩, ?_,
      rfl, rfl, rfl⟩
    simp only [applyToUser, List.mem_map]
    exact ⟨⟨username, username, bcryptHash pw, "", now, [], false, some vtok⟩,
      by simp, by simp⟩
  · cases sendOk with
    | true =>
      have hrun : registerHandler ⟨users, []⟩ username pw email vtok true now
          = (⟨201,
              "User registered successfully. Please check your email to verify your account.",
              some (signAccessTok username username now),
              some (signRefreshTok username username now)⟩,
             ⟨applyToUser (users ++ [⟨username, username, bcryptHash pw, email,
                now, [], false, some vtok⟩]) username
               (fun v => { v with refreshTokens :=
                 v.refreshTokens ++ [signRefreshTok username username now] }), []⟩) := by
        simp [registerHandler, hun, hpw, getUser_nofault, hfind, hcreate, hem,
          addTok_nofault]
      rw [hrun]
      refine ⟨rfl, by simp, fun _ hcon => Bool.noConfusion hcon, ?_⟩
      refine ⟨⟨username, username, bcryptHash pw, email, now,
        [signRefreshTok username username now], false, some vtok⟩, ?_,
        rfl, rfl, rfl⟩
      simp only [applyToUser, List.mem_map]
      exact ⟨⟨username, username, bcryptHash pw, email, now, [], false,
        some vtok⟩, by simp, by simp⟩
    | false =>
      have hrun : registerHandler ⟨users, []⟩ username pw email vtok false now
          = (⟨201,
              "User registered successfully, but verification email could not be sent.",
              none, none⟩,
             ⟨users ++ [⟨username, username, bcryptHash pw, email, now, [],
                false, some vtok⟩], []⟩) := by
        simp [registerHandler, hun, hpw, getUser_nofault, hfind, hcreate, hem]
      rw [hrun]
      refine ⟨rfl, by simp [hem], fun _ _ => ⟨rfl, rfl⟩, ?_⟩
      exact ⟨⟨username, username, bcryptHash pw, email, now, [], false,
        some vtok⟩, by simp, rfl, rfl, rfl⟩

/-- C9 (witness): concrete registration of `carol` with an email whose
verification message fails to send — 201, both token fields null, the
record with its pending verification token in the store. -/
theorem c9_witness :
    (registerHandler ⟨[], []⟩ "carol" "pw12345" "carol@example.com" "vt-9"
        false 0).1.status = 201 ∧
    (registerHandler ⟨[], []⟩ "carol" "pw12345" "carol@example.com" "vt-9"
        false 0).1.token = none ∧
    (registerHandler ⟨[], []⟩ "carol" "pw12345" "carol@example.com" "vt-9"
        false 0).1.refreshToken = none ∧
    (∃ v ∈ (registerHandler ⟨[], []⟩ "carol" "pw12345" "carol@example.com"
        "vt-9" false 0).2.users,
      v.username = "carol" ∧ v.emailVerificationToken = some "vt-9" ∧
      v.emailVerified = false) := by
  have h := c9_register_conditional_token_issue [] "carol" "pw12345"
    "carol@example.com" "vt-9" false 0 (by decide) (by decide)
    (by intro v hv; cases hv)
  have h3 := h.2.2.1 (by decide) rfl
  exact ⟨h.1, h3.1, h3.2, h.2.2.2⟩

/-! ## Claim C10 — membership check fails closed on store errors -/

/-- C10: when the store read inside the membership check throws, the
check catches the error and returns false instead of propagating; a
refresh request whose membership check fails that way (first read —
the user load — succeeding, second read throwing) is rejected with the
very same 403 `Invalid refresh token` response as a revoked token, and
the user records are not modified by the failed refresh. -/
theorem c10_membership_check_fails_closed :
    (∀ (users : List User) (fs : List Bool) (n : String) (rt : Token),
      hasRefreshToken ⟨users, true :: fs⟩ n rt = (false, ⟨users, fs⟩)) ∧
    (∀ (users : List User) (u : User) (rt : Token) (now : Nat),
      rt.secret = JWT_SECRET → now < rt.claims.exp →
      rt.claims.isRefresh = true →
      users.find? (fun v => v.username == rt.claims.username) = some u →
      refreshHandler ⟨users, [false, true]⟩ (some rt) now
        = (invalidRefreshRes, ⟨users, []⟩)) := by
  have h1 : ∀ (users : List User) (fs : List Bool) (n : String) (rt : Token),
      hasRefreshToken ⟨users, true :: fs⟩ n rt = (false, ⟨users, fs⟩) := by
    intro users fs n rt
    simp [hasRefreshToken, getUserByUsername, popFault]
  refine ⟨h1, fun users u rt now hsec hexp href hu => ?_⟩
  have hget : getUserByUsername ⟨users, [false, true]⟩ rt.claims.username
      = (.ok (users.find? (fun v => v.username == rt.claims.username)),
         ⟨users, [true]⟩) := by
    simp [getUserByUsername, popFault]
  simp [refreshHandler, jwtVerify_ok hsec hexp, href, hget, hu, h1]

/-- C10 (witness): concrete run — the user load succeeds, the
membership check's read throws, the response is the 403
`Invalid refresh token` response, and the user records are those of
the initial store. -/
theorem c10_witness :
    hasRefreshToken ⟨exStore.users, [true]⟩ "anter" exRt
      = (false, ⟨exStore.users, []⟩) ∧
    refreshHandler ⟨exStore.users, [false, true]⟩ (some exRt) 1
      = (invalidRefreshRes, ⟨exStore.users, []⟩) :=
  ⟨c10_membership_check_fails_closed.1 exStore.users [] "anter" exRt,
   c10_membership_check_fails_closed.2 exStore.users
     { exUser with refreshTokens := [exRt] } exRt 1 rfl (by decide) rfl rfl⟩

end PhotoFilter
